import Mathlib

/-!
Verification of the FreshShare authentication/session middleware
(`middleware/authJwt.js`) against its specification.

The middleware is embedded shallowly:

* JWT strings are modelled symbolically: a token is either a well-formed
  token signed with some secret over a payload, or an arbitrary other
  string (malformed).  The `verify` of `jsonwebtoken` succeeds exactly on
  tokens signed with the matching secret whose `exp`, when present, is
  still in the future.
* Time is Unix seconds as an integer (`Date.now() / 1000`).
* The Mongo-backed user store (`User.findById`) is a function from
  identifier to a result: a found document, "no document", or a thrown
  error; the `select` call dropping the password field is a projection
  on the result.
* Each middleware becomes a pure function from (store, request, clock)
  to an explicit description of its effects: attached request
  attributes, cookie writes, the response sent, and how many times
  `next()` was invoked.

JavaScript truthiness matters in three places of the source and is
modelled explicitly: `req.cookies.token` (falsy for the empty string),
`decoded.id` (falsy for a missing or empty id), and `decoded.exp`
(falsy for a missing or zero expiry).
-/

namespace FreshShare

/-- Decoded JWT payload as produced by `jwt.sign` / consumed by
`jwt.verify`.  `id` is the subject identifier (absent keys of the JS
object are `none`); `iat` and `exp` are Unix seconds. -/
structure Payload where
  id : Option String
  iat : Option Int
  exp : Option Int
deriving Repr, DecidableEq

/-- Symbolic model of a JWT string: either a well-formed token signed
with a given secret over a payload, or any other string (malformed).
Signature validity is by construction: `verify` with secret `s`
succeeds only on `signed s p`. -/
inductive Jwt where
  | signed (secret : String) (payload : Payload)
  | garbage (s : String)
deriving Repr, DecidableEq

/-- JS truthiness of the token string: among strings, exactly the empty
string is falsy.  A well-formed signed token serializes to three
dot-separated base64 segments and is never empty. -/
def Jwt.isFalsy : Jwt → Bool
  | .signed _ _ => false
  | .garbage s => s.isEmpty

/-- Model of `JWT_SECRET`: the single process-wide signing secret
(the `JWT_SECRET` environment entry, defaulting to
freshShare-auth-secret). -/
def jwtSecret : String := "freshShare-auth-secret"

/-- Model of `jwt.verify(token, secret)` with the clock made explicit, returning
`none` where the library throws (the middleware catches and maps every
throw to `null`).  Succeeds iff the signature matches `secret` and the
`exp` of the payload, when present, is strictly in the future
(`jsonwebtoken` rejects once `clockTimestamp >= exp`). -/
def jwtVerify (t : Jwt) (secret : String) (now : Int) : Option Payload :=
  match t with
  | .garbage _ => none
  | .signed s p =>
    if s = secret then
      match p.exp with
      | some e => if e ≤ now then none else some p
      | none => some p
    else none

/-- Model of `jwt.sign` on the one-key payload carrying `id`, with a
7-day `expiresIn` option: a fresh token
for subject `id`, issued at `now`, expiring 7 days later.  (`id` is
`Option` because `JSON` serialization drops an `undefined` key.) -/
def jwtSign (id : Option String) (now : Int) : Jwt :=
  .signed jwtSecret { id := id, iat := some now, exp := some (now + 7 * 24 * 60 * 60) }

/-- Model of the `Authorization` request header: either `Bearer <token>` (the
remainder after `substring(7)` modelled as the token itself), or any
other string, which fails the `startsWith` test for the Bearer scheme. -/
inductive Authorization where
  | bearer (t : Jwt)
  | other (s : String)
deriving Repr, DecidableEq

/-- The parts of an Express request the middleware reads:
`req.cookies.token` (after `cookie-parser`; `none` when the cookie is
absent), `req.headers.authorization`, and `req.originalUrl`. -/
structure Request where
  cookieToken : Option Jwt
  authorization : Option Authorization
  originalUrl : String
deriving Repr, DecidableEq

/-- The token taken from the `Authorization` header when the cookie
branch is not taken: present iff the header exists and starts with
`Bearer `. -/
def bearerToken : Option Authorization → Option Jwt
  | some (.bearer t) => some t
  | _ => none

/-- The token-string selection of `decodeToken`: the `token` cookie
when truthy (`if (req.cookies && req.cookies.token)`), else the
`Bearer` authorization header when present.  Reads only the request —
no clock involvement. -/
def selectedToken (req : Request) : Option Jwt :=
  match req.cookieToken with
  | some t => if t.isFalsy then bearerToken req.authorization else some t
  | none => bearerToken req.authorization

/-- Model of `decodeToken(req)`: select a token string as above; return `null`
when no truthy token string was found (`if (!token)`), else the result
of `jwt.verify` with failures collapsed to `null`. -/
def decodeToken (req : Request) (now : Int) : Option Payload :=
  match selectedToken req with
  | none => none
  | some t => if t.isFalsy then none else jwtVerify t jwtSecret now

/-- Model of `renewTokenIfNecessary(res, decoded)`: when the `exp` of the
payload is
truthy (present and nonzero) and less than 24 hours away, sign a fresh
7-day token for the same `decoded.id` and write it to the `token`
cookie; the return value is the cookie write performed (`none` = no
write).  The cookie flags (`httpOnly`, `sameSite=lax`, `path=/`,
`secure` iff production, 7-day `maxAge`) carry no information beyond
the written token and are not modelled. -/
def renewTokenIfNecessary (decoded : Payload) (now : Int) : Option Jwt :=
  match decoded.exp with
  | none => none
  | some e =>
    if e ≠ 0 ∧ e - now < 24 * 60 * 60 then some (jwtSign decoded.id now)
    else none

/-- A user document in the Mongo store.  `password` is `none` when the
field was projected away by the `select` call dropping it; `username` stands
for the remaining profile fields. -/
structure UserRec where
  _id : String
  password : Option String
  username : String
deriving Repr, DecidableEq

/-- Result of a `User.findById` query: a found document, no matching
document (mongoose resolves to `null`), or a thrown error (network,
cast failure, ...). -/
inductive DbResult where
  | found (u : UserRec)
  | notFound
  | dbError (msg : String)
deriving Repr, DecidableEq

/-- The user store: what `User.findById` yields for each identifier. -/
def UserStore := String → DbResult

/-- Model of `User.findById(id)`. -/
def findById (store : UserStore) (id : String) : DbResult := store id

/-- Model of the `select` projection dropping the password: drop it from a found
document; errors and misses pass through. -/
def selectNoPassword : DbResult → DbResult
  | .found u => .found { u with password := none }
  | r => r

/-- JS truthiness of `decoded.id` (a string when present): truthy iff
present and nonempty. -/
def idTruthy : Option String → Bool
  | some s => !s.isEmpty
  | none => false

/-- Effects of one run of `addUserToRequestAndLocals`: the user
attached to `req.user` and to `res.locals.user`, the renewal cookie
written (if any), the response sent by the middleware itself (status
and body — always `none`: this middleware writes no response), and the
number of `next()` invocations. -/
structure CtxOutcome where
  reqUser : Option UserRec
  localsUser : Option UserRec
  cookie : Option Jwt
  sentResponse : Option (Nat × String)
  nextCalls : Nat
deriving Repr, DecidableEq

/-- Model of `addUserToRequestAndLocals(req, res, next)`: decode the token; when
a truthy `decoded.id` is present, look the user up with
the password-dropping projection; on a found document attach it to `req.user`
and `res.locals.user` and run the renewal policy; a miss or a thrown
lookup error is swallowed (`catch` logs only); `next()` is always
called exactly once and no response is written. -/
def addUserToRequestAndLocals (store : UserStore) (req : Request) (now : Int) :
    CtxOutcome :=
  match decodeToken req now with
  | none =>
    { reqUser := none, localsUser := none, cookie := none,
      sentResponse := none, nextCalls := 1 }
  | some decoded =>
    if idTruthy decoded.id then
      match selectNoPassword (findById store (decoded.id.getD "")) with
      | .found u =>
        { reqUser := some u, localsUser := some u,
          cookie := renewTokenIfNecessary decoded now,
          sentResponse := none, nextCalls := 1 }
      | .notFound =>
        { reqUser := none, localsUser := none, cookie := none,
          sentResponse := none, nextCalls := 1 }
      | .dbError _ =>
        { reqUser := none, localsUser := none, cookie := none,
          sentResponse := none, nextCalls := 1 }
    else
      { reqUser := none, localsUser := none, cookie := none,
        sentResponse := none, nextCalls := 1 }

/-- Outcome of `requireAuthForApi`: either a JSON response
`status(status).json({ success, message })` with no `next()` call, or
`next()` after attaching `req.user` and `req.userId`, possibly having
written a renewal cookie. -/
inductive ApiOutcome where
  | respond (status : Nat) (success : Bool) (message : String)
  | proceed (reqUser : UserRec) (userId : String) (cookie : Option Jwt)
deriving Repr, DecidableEq

/-- Model of `requireAuthForApi(req, res, next)`: re-resolve the token; a falsy
`decoded` or `decoded.id` yields `403`; then `User.findById` WITHOUT a
password projection: `null` yields `401`, a throw yields `500`, and a
found document is attached as `req.user` (with `req.userId = user._id`)
before the renewal policy and `next()`. -/
def requireAuthForApi (store : UserStore) (req : Request) (now : Int) : ApiOutcome :=
  match decodeToken req now with
  | none => .respond 403 false "Authentication failed. No token provided."
  | some decoded =>
    if idTruthy decoded.id then
      match findById store (decoded.id.getD "") with
      | .found u => .proceed u u._id (renewTokenIfNecessary decoded now)
      | .notFound => .respond 401 false "Unauthorized. User not found."
      | .dbError _ => .respond 500 false "Server error during API authentication."
    else .respond 403 false "Authentication failed. No token provided."

/-- Characters that the `encodeURIComponent` of JavaScript leaves
unescaped: the letters, the digits, hyphen, underscore, period, bang,
tilde, asterisk, the single quote and the parentheses (compared by
code point to keep the table explicit). -/
def isUriUnescaped (c : Char) : Bool :=
  let n := c.toNat
  (65 ≤ n && n ≤ 90) || (97 ≤ n && n ≤ 122) || (48 ≤ n && n ≤ 57) ||
    n == 45 || n == 95 || n == 46 || n == 33 || n == 126 || n == 42 ||
    n == 39 || n == 40 || n == 41

/-- Uppercase hexadecimal digit for `n < 16`. -/
def hexDigit (n : Nat) : Char :=
  if n < 10 then Char.ofNat (48 + n) else Char.ofNat (55 + n)

/-- UTF-8 encoding of one Unicode scalar value, as byte values. -/
def utf8Bytes (n : Nat) : List Nat :=
  if n < 128 then [n]
  else if n < 2048 then [192 + n / 64, 128 + n % 64]
  else if n < 65536 then [224 + n / 4096, 128 + n / 64 % 64, 128 + n % 64]
  else [240 + n / 262144, 128 + n / 4096 % 64, 128 + n / 64 % 64, 128 + n % 64]

/-- Percent-escape of one byte: `%` followed by two uppercase hex
digits. -/
def pctByte (b : Nat) : String :=
  String.mk [Char.ofNat 37, hexDigit (b / 16), hexDigit (b % 16)]

/-- Model of the `encodeURIComponent` of JavaScript: unescaped characters pass
through, every other character is percent-escaped per UTF-8 byte. -/
def encodeURIComponent (s : String) : String :=
  String.join (s.data.map fun c =>
    if isUriUnescaped c then String.mk [c]
    else String.join ((utf8Bytes c.toNat).map pctByte))

/-- Outcome of `requireAuthForPage`: either `next()` (response
untouched), or a redirect response with the given status and
`Location`, with no `next()` call. -/
inductive PageOutcome where
  | next
  | redirect (status : Nat) (location : String)
deriving Repr, DecidableEq

/-- Model of `requireAuthForPage(req, res, next)`: pass through when `req.user`
is attached, else `res.redirect(...)` — which with a single argument
responds `302 Found` — to the login page with the original URL and a
fixed message as query parameters. -/
def requireAuthForPage (reqUser : Option UserRec) (originalUrl : String) :
    PageOutcome :=
  match reqUser with
  | some _ => .next
  | none =>
    .redirect 302
      ("/login?redirect=" ++ encodeURIComponent originalUrl ++
        "&error=Please+log+in+to+view+this+page")

/-! Concrete fixtures used by witnesses and counterexamples. -/

/-- A payload naming subject `alice`, expiring at second 1000000. -/
def aliceP : Payload := { id := some "alice", iat := some 0, exp := some 1000000 }

/-- A payload naming subject `bob`, expiring at second 2000000. -/
def bobP : Payload := { id := some "bob", iat := some 0, exp := some 2000000 }

/-- A store with no users at all. -/
def emptyStore : UserStore := fun _ => .notFound

/-- A request with no cookie and no authorization header. -/
def anonReq : Request :=
  { cookieToken := none, authorization := none, originalUrl := "/api/x" }

/-- The stored document for subject `u1`, password hash included, as
`User.findById` returns it without a projection. -/
def fullUser : UserRec :=
  { _id := "u1", password := some "secret-hash", username := "alice" }

/-- A store holding exactly the one user `u1`. -/
def oneUserStore : UserStore := fun i => if i = "u1" then .found fullUser else .notFound

/-- A long-lived payload naming subject `u1`. -/
def u1P : Payload := { id := some "u1", iat := some 0, exp := some 1000000000 }

/-- A request authenticating as `u1` via the `token` cookie. -/
def u1Req : Request :=
  { cookieToken := some (.signed jwtSecret u1P), authorization := none,
    originalUrl := "/api/x" }

/-- Projection of `fullUser` with the password field dropped. -/
def strippedUser : UserRec := { _id := "u1", password := none, username := "alice" }

/-! Helper lemmas. -/

/-- A successful `jwt.verify` returns the payload of a token signed
with the queried secret, and that token is not falsy. -/
theorem jwtVerify_some_elim {t : Jwt} {secret : String} {now : Int} {p : Payload}
    (h : jwtVerify t secret now = some p) :
    t = .signed secret p ∧ t.isFalsy = false := by
  cases t with
  | garbage s => simp [jwtVerify] at h
  | signed s q =>
    unfold jwtVerify at h
    by_cases hs : s = secret
    · subst hs
      constructor
      · cases hq : q.exp with
        | none => simp [hq] at h; simp [h]
        | some e =>
          simp [hq] at h
          rcases h with ⟨_, h2⟩
          simp [h2]
      · simp [Jwt.isFalsy]
    · simp [hs] at h

/-- A payload accepted by `jwt.verify` is unexpired: its `exp`, when
present, lies strictly in the future. -/
theorem jwtVerify_exp_future {t : Jwt} {secret : String} {now : Int} {p : Payload}
    {e : Int} (h : jwtVerify t secret now = some p) (he : p.exp = some e) :
    now < e := by
  obtain ⟨ht, -⟩ := jwtVerify_some_elim h
  subst ht
  unfold jwtVerify at h
  simp [he] at h
  omega

/-- Stability: `jwt.verify` at another instant still before the expiry accepts the
same token with the same payload. -/
theorem jwtVerify_time_shift {t : Jwt} {secret : String} {now now' : Int}
    {p : Payload} {e : Int} (h : jwtVerify t secret now = some p)
    (he : p.exp = some e) (hn : now' < e) :
    jwtVerify t secret now' = some p := by
  obtain ⟨ht, -⟩ := jwtVerify_some_elim h
  subst ht
  simp [jwtVerify, he]
  omega

/-- A successful decode pins down the selected token string: it is
present, truthy, and `jwt.verify` accepts it with the returned
payload. -/
theorem decodeToken_some_elim {req : Request} {now : Int} {p : Payload}
    (h : decodeToken req now = some p) :
    ∃ t, selectedToken req = some t ∧ t.isFalsy = false ∧
      jwtVerify t jwtSecret now = some p := by
  unfold decodeToken at h
  cases hs : selectedToken req with
  | none => rw [hs] at h; simp at h
  | some t =>
    rw [hs] at h
    by_cases hf : t.isFalsy
    · simp [hf] at h
    · simp [hf] at h
      exact ⟨t, rfl, by simpa using hf, h⟩

/-- Lemma: when the `token` cookie is present and truthy, `decodeToken` is
exactly `jwt.verify` on the cookie value: the `Authorization` header is
never consulted. -/
theorem decodeToken_cookie_truthy {req : Request} {t : Jwt} (now : Int)
    (hc : req.cookieToken = some t) (hf : t.isFalsy = false) :
    decodeToken req now = jwtVerify t jwtSecret now := by
  unfold decodeToken selectedToken
  rw [hc]
  simp [hf]

/-- A password-dropping `select` projection that finds a document
returns it with the password field absent. -/
theorem selectNoPassword_found {r : DbResult} {w : UserRec}
    (h : selectNoPassword r = .found w) : w.password = none := by
  cases r with
  | found v =>
    simp [selectNoPassword] at h
    subst h
    rfl
  | notFound => simp [selectNoPassword] at h
  | dbError m => simp [selectNoPassword] at h

/-! Claims. -/

/-- Claim C7: a decoded payload lacking an `exp` field never triggers a
renewal and never writes a cookie, regardless of the current time:
`decoded.exp` is falsy, so `renewTokenIfNecessary` takes its
no-write branch. -/
theorem renewTokenIfNecessary_no_exp (id : Option String) (iat : Option Int)
    (now : Int) :
    renewTokenIfNecessary { id := id, iat := iat, exp := none } now = none := rfl

/-- Claim C6: whenever the renewal policy issues a replacement token, the
replacement is signed over exactly the subject of the original payload,
namely its
identifier, with only `iat` (set to `now`) and `exp` (set 7 days out)
fresh. -/
theorem renewTokenIfNecessary_preserves_subject (p : Payload) (now : Int) (t : Jwt)
    (h : renewTokenIfNecessary p now = some t) :
    t = .signed jwtSecret
      { id := p.id, iat := some now, exp := some (now + 7 * 24 * 60 * 60) } := by
  unfold renewTokenIfNecessary at h
  split at h
  · exact Option.noConfusion h
  · split at h
    · injection h with h
      subst h
      rfl
    · exact Option.noConfusion h

/-- Witness for C6 at a concrete payload close to expiry. -/
theorem renewTokenIfNecessary_preserves_subject_witness :
    jwtSign (some "w6") 50 =
      .signed jwtSecret
        { id := some "w6", iat := some 50, exp := some (50 + 7 * 24 * 60 * 60) } :=
  renewTokenIfNecessary_preserves_subject
    { id := some "w6", iat := some 5, exp := some 100 } 50
    (jwtSign (some "w6") 50) (by decide)

/-- Claim C8: the page guard passes through untouched when a user record
is attached to the request, and otherwise — with no further handler
invoked — redirects with status 302 to `/login` carrying the
URL-encoded original URL in `redirect` and the fixed human-readable
message in `error`; concretely, `/dashboard` redirects to
`/login?redirect=%2Fdashboard&error=Please+log+in+to+view+this+page`. -/
theorem requireAuthForPage_contract :
    (∀ (u : UserRec) (url : String), requireAuthForPage (some u) url = .next) ∧
    (∀ url : String, requireAuthForPage none url =
      .redirect 302 ("/login?redirect=" ++ encodeURIComponent url ++
        "&error=Please+log+in+to+view+this+page")) ∧
    requireAuthForPage none "/dashboard" =
      .redirect 302 "/login?redirect=%2Fdashboard&error=Please+log+in+to+view+this+page" := by
  refine ⟨fun u url => rfl, fun url => rfl, ?_⟩
  decide

/-- Claim C5: for a payload actually produced by `decodeToken` (so its
expiry is in the future) carrying an `exp` field, the renewal policy
fires exactly when `exp - now` is strictly below 24 hours; in
particular 23h59m away triggers renewal and 25h away does not. -/
theorem renewTokenIfNecessary_iff (req : Request) (now : Int) (p : Payload) (e : Int)
    (hnow : 0 ≤ now) (hd : decodeToken req now = some p) (he : p.exp = some e) :
    (renewTokenIfNecessary p now).isSome = true ↔ e - now < 24 * 60 * 60 := by
  obtain ⟨t, -, -, hv⟩ := decodeToken_some_elim hd
  have hfut : now < e := jwtVerify_exp_future hv he
  have hne : e ≠ 0 := by omega
  unfold renewTokenIfNecessary
  rw [he]
  by_cases hlt : e - now < 24 * 60 * 60
  · simp [hne, hlt]
  · simp [hne, hlt]

/-- Witness for C5: a credential 23h59m from expiry, decoded at time 0,
is renewed. -/
theorem renewTokenIfNecessary_iff_witness :
    (renewTokenIfNecessary { id := some "u5", iat := some 0, exp := some 86340 } 0).isSome
      = true :=
  (renewTokenIfNecessary_iff
    { cookieToken := some (.signed jwtSecret
        { id := some "u5", iat := some 0, exp := some 86340 }),
      authorization := none, originalUrl := "/" }
    0 { id := some "u5", iat := some 0, exp := some 86340 } 86340
    (by decide) (by decide) rfl).mpr (by decide)

/-- Claim C9: a credential resolved successfully whose expiry is more
than 24 hours away at both instants resolves to the identical payload
at the second instant, and the renewal policy writes no cookie on
either resolution. -/
theorem decodeToken_idempotent (req : Request) (now₁ now₂ : Int) (p : Payload)
    (e : Int) (hd : decodeToken req now₁ = some p) (he : p.exp = some e)
    (h₁ : 24 * 60 * 60 < e - now₁) (h₂ : 24 * 60 * 60 < e - now₂) :
    decodeToken req now₂ = some p ∧
    renewTokenIfNecessary p now₁ = none ∧
    renewTokenIfNecessary p now₂ = none := by
  obtain ⟨t, hs, hf, hv⟩ := decodeToken_some_elim hd
  refine ⟨?_, ?_, ?_⟩
  · unfold decodeToken
    rw [hs]
    simp [hf]
    exact jwtVerify_time_shift hv he (by omega)
  · unfold renewTokenIfNecessary
    rw [he]
    exact if_neg (by rintro ⟨-, hlt⟩; omega)
  · unfold renewTokenIfNecessary
    rw [he]
    exact if_neg (by rintro ⟨-, hlt⟩; omega)

/-- Witness for C9 at a concrete cookie credential far from expiry,
resolved at times 0 and 10. -/
theorem decodeToken_idempotent_witness :
    decodeToken
        { cookieToken := some (.signed jwtSecret aliceP),
          authorization := none, originalUrl := "/" } 10 = some aliceP ∧
      renewTokenIfNecessary aliceP 0 = none ∧
      renewTokenIfNecessary aliceP 10 = none :=
  decodeToken_idempotent
    { cookieToken := some (.signed jwtSecret aliceP),
      authorization := none, originalUrl := "/" }
    0 10 aliceP 1000000 (by decide) rfl (by decide) (by decide)

/-- Counterexample for C3: a request that carries both a `token` cookie
(with the empty string as value — which `jwt.verify` rejects) and a
`Bearer` header naming `bob` resolves to the payload of `bob`: the cookie is
falsy, so `decodeToken` falls through to the header rather than using
the credential of the cookie. -/
theorem decodeToken_empty_cookie_uses_header :
    ({ cookieToken := some (.garbage ""),
       authorization := some (.bearer (.signed jwtSecret bobP)),
       originalUrl := "/" } : Request).cookieToken = some (.garbage "") ∧
    decodeToken
      { cookieToken := some (.garbage ""),
        authorization := some (.bearer (.signed jwtSecret bobP)),
        originalUrl := "/" } 0 = some bobP ∧
    jwtVerify (.garbage "") jwtSecret 0 = none := by
  decide

/-- Amended C3: for every request whose `token` cookie is present
and truthy (nonempty), resolution is exactly `jwt.verify` on the
credential of the cookie — the header is ignored — and, in particular, a
verifiable signed cookie resolves to its own payload regardless of any
bearer header. -/
theorem decodeToken_cookie_precedence (req : Request) (t : Jwt) (now : Int)
    (hc : req.cookieToken = some t) (hf : t.isFalsy = false) :
    decodeToken req now = jwtVerify t jwtSecret now ∧
    (∀ p : Payload, t = .signed jwtSecret p →
      (∀ e, p.exp = some e → now < e) →
      decodeToken req now = some p) := by
  refine ⟨decodeToken_cookie_truthy now hc hf, ?_⟩
  intro p hp hfut
  rw [decodeToken_cookie_truthy now hc hf, hp]
  cases hpe : p.exp with
  | none => simp [jwtVerify, hpe]
  | some e =>
    have := hfut e hpe
    simp [jwtVerify, hpe]
    omega

/-- Witness for C3 (amended): a cookie naming `alice` beats a bearer
header naming `bob`. -/
theorem decodeToken_cookie_precedence_witness :
    decodeToken
      { cookieToken := some (.signed jwtSecret aliceP),
        authorization := some (.bearer (.signed jwtSecret bobP)),
        originalUrl := "/" } 0 = some aliceP :=
  (decodeToken_cookie_precedence
    { cookieToken := some (.signed jwtSecret aliceP),
      authorization := some (.bearer (.signed jwtSecret bobP)),
      originalUrl := "/" }
    (.signed jwtSecret aliceP) 0 rfl rfl).2 aliceP rfl
    (by intro e he; simp [aliceP] at he; omega)

/-- Counterexample for C10: the cookie `token=` (empty value) is
present and fails verification, yet the resolver does not yield
nothing: it falls back to the valid `Bearer` credential and yields its
payload.  Presence of a falsy cookie does not decide the source. -/
theorem decodeToken_falsy_cookie_falls_back :
    jwtVerify (.garbage "") jwtSecret 5 = none ∧
    decodeToken
      { cookieToken := some (.garbage ""),
        authorization := some (.bearer (.signed jwtSecret aliceP)),
        originalUrl := "/api" } 5 = some aliceP := by
  decide

/-- Amended C10: for every request whose `token` cookie is present,
truthy (nonempty) and fails verification, `decodeToken` yields nothing
even when the request also carries a valid bearer credential: for a
truthy cookie there is no fallback to the header. -/
theorem decodeToken_invalid_cookie_no_fallback (req : Request) (t : Jwt) (now : Int)
    (hc : req.cookieToken = some t) (hf : t.isFalsy = false)
    (hv : jwtVerify t jwtSecret now = none) :
    decodeToken req now = none := by
  rw [decodeToken_cookie_truthy now hc hf, hv]

/-- Witness for C10 (amended): a malformed nonempty cookie suppresses a
valid bearer credential. -/
theorem decodeToken_invalid_cookie_no_fallback_witness :
    decodeToken
      { cookieToken := some (.garbage "bad"),
        authorization := some (.bearer (.signed jwtSecret bobP)),
        originalUrl := "/api" } 0 = none :=
  decodeToken_invalid_cookie_no_fallback
    { cookieToken := some (.garbage "bad"),
      authorization := some (.bearer (.signed jwtSecret bobP)),
      originalUrl := "/api" }
    (.garbage "bad") 0 rfl rfl rfl

/-- Claim C1: the API guard answers `403` with a `success:false` body
when resolution yields nothing — including for a well-formed but
expired bearer credential — and `401` with a `success:false` body when
resolution yields a subject whose user record is missing from the
store; both outcomes are `ApiOutcome.respond`, which by construction
sends the JSON response in place of invoking the next handler. -/
theorem requireAuthForApi_failure_contract (store : UserStore) (req : Request)
    (now : Int) :
    (decodeToken req now = none →
      requireAuthForApi store req now =
        .respond 403 false "Authentication failed. No token provided.") ∧
    (∀ (p : Payload) (e : Int), req.cookieToken = none →
      req.authorization = some (.bearer (.signed jwtSecret p)) →
      p.exp = some e → e ≤ now →
      requireAuthForApi store req now =
        .respond 403 false "Authentication failed. No token provided.") ∧
    (∀ (p : Payload) (uid : String), decodeToken req now = some p →
      p.id = some uid → uid.isEmpty = false →
      findById store uid = .notFound →
      requireAuthForApi store req now =
        .respond 401 false "Unauthorized. User not found.") := by
  refine ⟨?_, ?_, ?_⟩
  · intro h
    unfold requireAuthForApi
    rw [h]
  · intro p e hck hac hpe hle
    have hd : decodeToken req now = none := by
      unfold decodeToken selectedToken bearerToken
      rw [hck, hac]
      simp [Jwt.isFalsy, jwtVerify, hpe, hle]
    unfold requireAuthForApi
    rw [hd]
  · intro p uid hd hid hne hnf
    unfold findById at hnf
    simp [requireAuthForApi, hd, idTruthy, hid, hne, findById, hnf]

/-- Witness for C1: a request with no credential at all is answered
`403`. -/
theorem requireAuthForApi_failure_contract_witness :
    requireAuthForApi emptyStore anonReq 0 =
      .respond 403 false "Authentication failed. No token provided." :=
  (requireAuthForApi_failure_contract emptyStore anonReq 0).1 rfl

/-- Claim C4: the global context middleware calls `next()` exactly once
on every path, never writes a response itself, and swallows every
user-store failure — a miss or a throw leaves the request with no
attached user, no locals user and no renewal cookie while processing
continues. -/
theorem addUser_always_continues (store : UserStore) (req : Request) (now : Int) :
    (addUserToRequestAndLocals store req now).nextCalls = 1 ∧
    (addUserToRequestAndLocals store req now).sentResponse = none ∧
    (∀ p : Payload, decodeToken req now = some p →
      (findById store (p.id.getD "") = .notFound ∨
        ∃ m, findById store (p.id.getD "") = .dbError m) →
      (addUserToRequestAndLocals store req now).reqUser = none ∧
      (addUserToRequestAndLocals store req now).localsUser = none ∧
      (addUserToRequestAndLocals store req now).cookie = none) := by
  refine ⟨?_, ?_, ?_⟩
  · unfold addUserToRequestAndLocals
    repeat' split
    all_goals rfl
  · unfold addUserToRequestAndLocals
    repeat' split
    all_goals rfl
  · intro p hd hfail
    unfold addUserToRequestAndLocals
    rw [hd]
    cases ht : idTruthy p.id with
    | false => simp [ht]
    | true =>
      rcases hfail with hnf | ⟨m, herr⟩
      · simp [ht, hnf, selectNoPassword]
      · simp [ht, herr, selectNoPassword]

/-- Witness for C4: a valid credential whose subject is absent from the
store still continues with nothing attached. -/
theorem addUser_always_continues_witness :
    (addUserToRequestAndLocals emptyStore u1Req 0).reqUser = none ∧
    (addUserToRequestAndLocals emptyStore u1Req 0).localsUser = none ∧
    (addUserToRequestAndLocals emptyStore u1Req 0).cookie = none :=
  (addUser_always_continues emptyStore u1Req 0).2.2 u1P (by decide) (Or.inl rfl)

/-- Counterexample for C2: the API guard loads the user WITHOUT the
`-password` projection, so the record it attaches to the request
retains the stored password hash: authenticating as `u1` proceeds with
`fullUser`, whose password field is present. -/
theorem requireAuthForApi_attaches_password :
    requireAuthForApi oneUserStore u1Req 0 = .proceed fullUser "u1" none ∧
    fullUser.password = some "secret-hash" := by
  decide

/-- Amended C2: the global context middleware attaches only
password-free records (to `req.user` and `res.locals.user` alike),
while the API guard attaches the user record exactly as the store
returns it — including its password field. -/
theorem attached_user_password_policy (store : UserStore) (req : Request)
    (now : Int) :
    (∀ u : UserRec,
      (addUserToRequestAndLocals store req now).reqUser = some u →
      u.password = none) ∧
    (∀ u : UserRec,
      (addUserToRequestAndLocals store req now).localsUser = some u →
      u.password = none) ∧
    (∀ (u : UserRec) (uid : String) (ck : Option Jwt),
      requireAuthForApi store req now = .proceed u uid ck →
      ∃ i, findById store i = .found u) := by
  refine ⟨?_, ?_, ?_⟩
  · intro u hu
    unfold addUserToRequestAndLocals at hu
    rcases hd : decodeToken req now with - | p
    all_goals rw [hd] at hu
    · simp at hu
    · cases ht : idTruthy p.id with
      | false => simp [ht] at hu
      | true =>
        simp only [ht, if_true] at hu
        cases hsel : selectNoPassword (findById store (p.id.getD "")) with
        | found w =>
          rw [hsel] at hu
          simp at hu
          rw [← hu]
          exact selectNoPassword_found hsel
        | notFound => rw [hsel] at hu; simp at hu
        | dbError m => rw [hsel] at hu; simp at hu
  · intro u hu
    unfold addUserToRequestAndLocals at hu
    rcases hd : decodeToken req now with - | p
    all_goals rw [hd] at hu
    · simp at hu
    · cases ht : idTruthy p.id with
      | false => simp [ht] at hu
      | true =>
        simp only [ht, if_true] at hu
        cases hsel : selectNoPassword (findById store (p.id.getD "")) with
        | found w =>
          rw [hsel] at hu
          simp at hu
          rw [← hu]
          exact selectNoPassword_found hsel
        | notFound => rw [hsel] at hu; simp at hu
        | dbError m => rw [hsel] at hu; simp at hu
  · intro u uid ck hpr
    unfold requireAuthForApi at hpr
    rcases hd : decodeToken req now with - | p
    all_goals rw [hd] at hpr
    · simp at hpr
    · cases ht : idTruthy p.id with
      | false => simp [ht] at hpr
      | true =>
        simp only [ht, if_true] at hpr
        cases hq : findById store (p.id.getD "") with
        | found v =>
          rw [hq] at hpr
          simp at hpr
          exact ⟨p.id.getD "", by rw [hq, hpr.1]⟩
        | notFound => rw [hq] at hpr; simp at hpr
        | dbError m => rw [hq] at hpr; simp at hpr

/-- Witness for C2 (amended): with the one-user store, the context
middleware attaches exactly the projected, password-free record. -/
theorem attached_user_password_policy_witness :
    strippedUser.password = none :=
  (attached_user_password_policy oneUserStore u1Req 0).1 strippedUser (by decide)

end FreshShare
